import Mathlib

/-!
Verification development for csi_http_client/http_client.h
(bitbouncer/deprecated-csi-http-client).

The repository ships a single header.  The classes http_client::buffer
and http_client::call_context are implemented entirely in the header and
are embedded here directly.  The member functions of http_client itself
(check_completed, close, _perform, ...) are only declared in the header,
as their translation unit is not part of the repository, so those
operations are modelled from the specification, and each such definition
carries a doc comment starting with: Modelled from the spec.

Modelling conventions:
- bytes are Nat values (the code uses uint8_t; no claim depends on the
  8-bit bound);
- size_t arithmetic is Nat with an explicit modulus 2^64 where wraparound
  matters;
- std::chrono::steady_clock::time_point values are Nat tick counts in
  milliseconds since the clock epoch; a default-constructed time point is
  the epoch, i.e. tick 0 (the constructor of call_context does not
  initialise _start_ts / _end_ts, so both start at the epoch);
- int64_t results are Int; the C++ conversion of a negative int64_t
  to uint64_t (usual arithmetic conversions in the expression sz / ms,
  LP64 model) is reduction modulo 2^64, and the final cast to int reduces
  into the interval from -2^31 to 2^31 - 1.
-/

namespace CsiHttp

/-- The modulus 2^64 of size_t / uint64_t arithmetic. -/
def u64Mod : Nat := 2 ^ 64

/-- The modulus 2^32 of unsigned 32-bit arithmetic. -/
def u32Mod : Nat := 2 ^ 32

/-- The bound 2^31 used when reducing into the range of int. -/
def i32Bound : Nat := 2 ^ 31

/-- The C++ conversion of a (possibly negative) int64_t value to
uint64_t: reduction modulo 2^64. -/
def toUInt64 (z : Int) : Nat := (z % (u64Mod : Int)).toNat

/-- The C++ cast of an unsigned 64-bit value to int: reduce modulo 2^32
and reinterpret as a signed 32-bit value (modular wraparound, the
universal behaviour). -/
def castToInt (n : Nat) : Int :=
  let m := n % u32Mod
  if m < i32Bound then (m : Int) else (m : Int) - (u32Mod : Int)

/-!
Embedding of the class http_client::buffer (header, lines 27-40):
the constructor reserves 32*1024 bytes of capacity; reserve only touches
capacity; the two append overloads insert at the end; data returns the
address of the first element; size returns the element count; pop_back
calls resize with argument size() - 1 computed in size_t arithmetic.
Capacity has no observable effect on content or size, so the embedding
carries only the element sequence _data.
-/

/-- State of the byte buffer http_client::buffer: the sequence of stored
bytes of field _data. -/
structure Buffer where
  bytes : List Nat
  deriving Repr, DecidableEq

/-- Constructor of buffer: only reserves capacity; content starts
empty. -/
def Buffer.init : Buffer := ⟨[]⟩

/-- Member size: returns the element count of _data. -/
def Buffer.size (b : Buffer) : Nat := b.bytes.length

/-- Member reserve: capacity-only operation, no observable content
change. -/
def Buffer.reserve (b : Buffer) (_sz : Nat) : Buffer := b

/-- Member append of a byte range: inserts the range at the end of
_data. -/
def Buffer.append (b : Buffer) (p : List Nat) : Buffer := ⟨b.bytes ++ p⟩

/-- Member append of a single byte: push_back on _data. -/
def Buffer.appendByte (b : Buffer) (s : Nat) : Buffer := ⟨b.bytes ++ [s]⟩

/-- The size pop_back asks resize for: the value size() - 1 in size_t
arithmetic, which wraps to 2^64 - 1 when the buffer is empty. -/
def Buffer.popBackRequest (b : Buffer) : Nat := (b.size + u64Mod - 1) % u64Mod

/-- Behaviour of std::vector resize: truncate to the requested number of
elements, or pad with value-initialised (zero) elements up to it. -/
def Buffer.resize (b : Buffer) (sz : Nat) : Buffer :=
  ⟨b.bytes.take sz ++ List.replicate (sz - b.bytes.length) 0⟩

/-- Member pop_back: calls resize with size() - 1 in size_t arithmetic;
on an empty vector the request underflows to 2^64 - 1. -/
def Buffer.pop_back (b : Buffer) : Buffer := b.resize b.popBackRequest

/-- Member data: returns the address of the first element of _data.
Reading through this pointer is only defined when the vector is
non-empty; the embedding makes that explicit by returning none on an
empty buffer. -/
def Buffer.dataRead (b : Buffer) : Option (List Nat) :=
  if b.size = 0 then none else some b.bytes

/-!
Embedding of the class http_client::call_context: the fields the claims
touch.  The constructor (header, lines 49-64) initialises _http_result to
csi::http::undefined and leaves _start_ts, _end_ts and _transport_ok
default-initialised; a default steady_clock::time_point is the clock
epoch (tick 0).
-/

/-- Lifecycle phase of a request context (spec section 3: unattached,
then attached, then retired; strictly monotonic). -/
inductive Phase where
  | unattached
  | attached
  | retired
  deriving Repr, DecidableEq

/-- Exchange state of one http_client::call_context object. -/
structure CallContext where
  /-- Field _transport_ok (uninitialised in the constructor; modelled as
  false until the drainer sets it). -/
  transport_ok : Bool
  /-- Field _http_result of type csi::http::status_type (numeric status
  code). -/
  http_result : Int
  /-- Field _start_ts in millisecond ticks since the steady-clock
  epoch. -/
  start_ts : Nat
  /-- Field _end_ts in millisecond ticks since the steady-clock epoch. -/
  end_ts : Nat
  /-- Field _rx_buffer. -/
  rx_buffer : Buffer
  /-- Whether _curl_shared currently holds the self-reference. -/
  curl_shared : Bool
  /-- Lifecycle phase (spec section 3). -/
  phase : Phase
  deriving Repr, DecidableEq

/-- Value csi::http::undefined, the status the constructor assigns. -/
def CallContext.undefinedStatus : Int := 0

/-- State of a freshly constructed call_context: _http_result =
undefined, timestamps default-initialised to the epoch, buffer empty, no
self-reference, unattached. -/
def CallContext.new : CallContext :=
  { transport_ok := false
    http_result := CallContext.undefinedStatus
    start_ts := 0
    end_ts := 0
    rx_buffer := Buffer.init
    curl_shared := false
    phase := .unattached }

/-- Member milliseconds: the count of the duration _end_ts - _start_ts,
with timestamps modelled in millisecond ticks. -/
def CallContext.milliseconds (c : CallContext) : Int :=
  (c.end_ts : Int) - (c.start_ts : Int)

/-- Member microseconds: the same difference expressed in microsecond
ticks. -/
def CallContext.microseconds (c : CallContext) : Int :=
  ((c.end_ts : Int) - (c.start_ts : Int)) * 1000

/-- Member rx_content_length: the size of _rx_buffer. -/
def CallContext.rx_content_length (c : CallContext) : Nat := c.rx_buffer.size

/-- Member rx_content: the conditional expression choosing the data
pointer of _rx_buffer when its size is non-zero and the empty C string
otherwise.  The result is the byte sequence the returned pointer
designates; the storage of an empty buffer is never read. -/
def CallContext.rx_content (c : CallContext) : List Nat :=
  if c.rx_buffer.size ≠ 0 then
    match c.rx_buffer.dataRead with
    | some bs => bs
    | none => []
  else []

/-- Member rx_kb_per_sec: binds sz to rx_content_length() and ms to
milliseconds(), then returns 0 if ms equals 0 and otherwise the quotient
sz / ms, cast to int.  In the quotient the usual arithmetic conversions
turn the int64_t divisor into uint64_t (64-bit model). -/
def CallContext.rx_kb_per_sec (c : CallContext) : Int :=
  let sz : Nat := c.rx_content_length
  let ms : Int := c.milliseconds
  if ms = 0 then 0 else castToInt (sz / toUInt64 ms)

/-- Member transport_result: the flag _transport_ok. -/
def CallContext.transport_result (c : CallContext) : Bool := c.transport_ok

/-- Member ok: the conjunction of _transport_ok, _http_result at least
200 and _http_result below 300. -/
def CallContext.ok (c : CallContext) : Bool :=
  c.transport_ok && decide (200 ≤ c.http_result) && decide (c.http_result < 300)

/-- Modelled from the spec: the attach step of _perform (implementation
not in the repository).  Submitting the context to the engine records the
attach timestamp in _start_ts and hands the self-reference to the
transport engine (curl_start), moving the context to the attached
phase. -/
def CallContext.attach (c : CallContext) (now : Nat) : CallContext :=
  { c with start_ts := now, curl_shared := true, phase := .attached }

/-- Modelled from the spec: retirement (drainer steps 4-6; the
implementation of check_completed is not in the repository).  Records the
end timestamp in _end_ts, sets the transport success flag and status
code, releases the self-reference (curl_stop), and moves the context to
the retired phase. -/
def CallContext.retire (c : CallContext) (now : Nat) (tok : Bool) (status : Int) :
    CallContext :=
  { c with end_ts := now, transport_ok := tok, http_result := status,
           curl_shared := false, phase := .retired }

/-!
Model of the process-wide live-context counter s_context_count.  The
constructor (header, lines 59-62) takes the spinlock and increments it;
the destructor (lines 67-70) takes the spinlock and decrements it.  The
spinlock makes each increment and decrement one atomic step, so a
process history is a list of construction and destruction events
processed in order.
-/

/-- One process-wide context lifetime event: a call_context constructor
run or a destructor run. -/
inductive CtxEvent where
  | create
  | destroy
  deriving Repr, DecidableEq

/-- Effect of one event on s_context_count: the constructor performs one
spinlock-guarded size_t increment, the destructor one spinlock-guarded
size_t decrement. -/
def counterStep (c : Nat) : CtxEvent → Nat
  | .create => (c + 1) % u64Mod
  | .destroy => (c + u64Mod - 1) % u64Mod

/-- Value of s_context_count after processing the events in order,
starting from counter value c. -/
def counterFrom (c : Nat) : List CtxEvent → Nat
  | [] => c
  | e :: r => counterFrom (counterStep c e) r

/-- Number of live call_context objects after processing the events in
order, starting from n live objects. -/
def liveFrom (n : Nat) : List CtxEvent → Nat
  | [] => n
  | .create :: r => liveFrom (n + 1) r
  | .destroy :: r => liveFrom (n - 1) r

/-- A destructor only ever runs on a live object: an event list is valid
from n live objects when no destroy event occurs while zero objects are
live. -/
def validFrom (n : Nat) : List CtxEvent → Bool
  | [] => true
  | .create :: r => validFrom (n + 1) r
  | .destroy :: r => decide (0 < n) && validFrom (n - 1) r

/-!
Model of the engine operations check_completed and close.  Both are only
declared in the header; the definitions below follow the specification
(completion drainer, section 4.4; shutdown, section 4.5).
-/

/-- Outcome the transport engine reports for one finished native
handle: the handle identity, the transport-level success flag and the
final response status code. -/
structure FinishedInfo where
  handleId : Nat
  tokOutcome : Bool
  status : Int
  deriving Repr, DecidableEq

/-- Observable engine state: the finished-handle sequence not yet
drained, the set of handles attached to the transport engine, the
handle-to-context registry, the two timers, the socket map, the closed
flag, and the process-wide diagnostic counter. -/
structure EngineState where
  /-- Finished native handles not yet drained (the message sequence of
  the transport engine). -/
  finished : List FinishedInfo
  /-- Handles currently attached to the transport engine. -/
  attachedHandles : List Nat
  /-- Registry mapping each native handle to its owning context,
  maintained at attach time. -/
  ctxs : List (Nat × CallContext)
  /-- Whether the transport-driven timer _timer has a pending wait. -/
  timerPending : Bool
  /-- Whether _keepalive_timer has a pending wait. -/
  keepalivePending : Bool
  /-- Keys of _socket_map (registered socket wrappers). -/
  socketMap : List Nat
  /-- Whether close() has run (further submissions forbidden). -/
  closed : Bool
  /-- The process-wide diagnostic counter s_context_count. -/
  contextCount : Nat
  deriving Repr, DecidableEq

/-- Externally observable engine actions emitted while an operation
runs. -/
inductive EngineAction where
  /-- The native handle is detached from the transport engine. -/
  | detach (h : Nat)
  /-- The caller callback is invoked with the finished context. -/
  | invokeCb (h : Nat)
  /-- A socket wrapper is destroyed and removed from _socket_map. -/
  | releaseSocket (d : Nat)
  /-- A pending timer is cancelled. -/
  | cancelTimer
  deriving Repr, DecidableEq

/-- Modelled from the spec: drainer steps 3-4 applied to the registry,
where the entry owning the finished handle gets its end timestamp,
transport flag and status code recorded. -/
def retireEntry (ctxs : List (Nat × CallContext)) (f : FinishedInfo) (now : Nat) :
    List (Nat × CallContext) :=
  ctxs.map fun p =>
    if p.1 = f.handleId then (p.1, p.2.retire now f.tokOutcome f.status) else p

/-- Modelled from the spec: the loop body of check_completed.  For each
finished handle, in order: record the outcome on the owning context
(steps 3-4), detach the handle from the transport engine (step 5), then
release the self-reference and invoke the caller callback (step 6);
repeat until the finished sequence is exhausted (step 7). -/
def drainLoop (now : Nat) : List FinishedInfo → EngineState → EngineState × List EngineAction
  | [], s => (s, [])
  | f :: rest, s =>
    let res := drainLoop now rest
      { s with ctxs := retireEntry s.ctxs f now,
               attachedHandles := s.attachedHandles.erase f.handleId }
    (res.1, EngineAction.detach f.handleId :: EngineAction.invokeCb f.handleId :: res.2)

/-- Modelled from the spec: check_completed, which queries the finished
message sequence of the transport engine and drains it to empty within
the same call. -/
def check_completed (now : Nat) (s : EngineState) : EngineState × List EngineAction :=
  drainLoop now s.finished { s with finished := [] }

/-- Modelled from the spec: close() / shutdown(), which cancels every
pending timer, destroys every registered socket wrapper, and forbids
further submissions; in-flight contexts are left to drain, so close
itself never invokes a caller callback. -/
def close (s : EngineState) : EngineState × List EngineAction :=
  ({ s with timerPending := false, keepalivePending := false,
            socketMap := [], closed := true },
   (if s.timerPending then [EngineAction.cancelTimer] else []) ++
     (if s.keepalivePending then [EngineAction.cancelTimer] else []) ++
     s.socketMap.map EngineAction.releaseSocket)

/-- Replace the process-wide diagnostic counter value seen by the
engine. -/
def setCounter (s : EngineState) (c : Nat) : EngineState := { s with contextCount := c }

/-- Number of caller-callback invocations for handle h in an action
trace. -/
def invokeCount (tr : List EngineAction) (h : Nat) : Nat :=
  tr.count (EngineAction.invokeCb h)

/-- Number of detach actions for handle h in an action trace. -/
def detachCount (tr : List EngineAction) (h : Nat) : Nat :=
  tr.count (EngineAction.detach h)

/-- The per-handle action pair the drain loop emits. -/
def drainPair (f : FinishedInfo) : List EngineAction :=
  [EngineAction.detach f.handleId, EngineAction.invokeCb f.handleId]

/-- Concrete context for the C9 counterexample: attached at tick 1, not
yet retired, one received byte. -/
def rxRateCtx : CallContext :=
  { CallContext.new.attach 1 with rx_buffer := Buffer.mk [65] }

/-- Concrete context for the rx_kb_per_sec_spec witness: attached at tick
1, retired at tick 3, five received bytes. -/
def rxRateCtxRetired : CallContext :=
  { (CallContext.new.attach 1).retire 3 true 200 with
    rx_buffer := Buffer.mk [1, 2, 3, 4, 5] }

/-- Concrete engine state used by the drain witnesses: two finished
handles, both attached, with their registry entries, both timers pending
and one registered socket. -/
def drainDemoState : EngineState :=
  { finished := [⟨1, true, 200⟩, ⟨2, false, 0⟩]
    attachedHandles := [1, 2]
    ctxs := [(1, CallContext.new.attach 3), (2, CallContext.new.attach 4)]
    timerPending := true
    keepalivePending := true
    socketMap := [5]
    closed := false
    contextCount := 2 }

end CsiHttp

namespace CsiHttp

/-!
Helper lemmas about the buffer.
-/

/-- Helper: on a non-empty buffer of size below 2^64 the size pop_back
requests is exactly size - 1. -/
theorem Buffer.popBackRequest_of_pos (b : Buffer) (h1 : 1 ≤ b.size) (h2 : b.size < u64Mod) :
    b.popBackRequest = b.size - 1 := by
  unfold popBackRequest
  have hsplit : b.size + u64Mod - 1 = (b.size - 1) + u64Mod := by omega
  rw [hsplit, Nat.add_mod_right, Nat.mod_eq_of_lt (by omega)]

/-- Helper: pop_back on a non-empty buffer drops exactly the last
byte. -/
theorem Buffer.pop_back_of_pos (b : Buffer) (h1 : 1 ≤ b.size) (h2 : b.size < u64Mod) :
    (b.pop_back).size = b.size - 1 ∧ (b.pop_back).bytes = b.bytes.take (b.size - 1) := by
  have hrep : b.size - 1 - b.bytes.length = 0 := by
    unfold size at h1 ⊢; omega
  unfold pop_back resize
  rw [popBackRequest_of_pos b h1 h2, hrep]
  refine ⟨?_, by simp⟩
  simp [size]

/-!
Helper lemmas about the counter model and the engine model.
-/

/-- Helper: one-step unfolding of counterFrom. -/
theorem counterFrom_cons (c : Nat) (e : CtxEvent) (r : List CtxEvent) :
    counterFrom c (e :: r) = counterFrom (counterStep c e) r := rfl

/-- Helper: one-step unfolding of liveFrom on a create event. -/
theorem liveFrom_cons_create (n : Nat) (r : List CtxEvent) :
    liveFrom n (CtxEvent.create :: r) = liveFrom (n + 1) r := rfl

/-- Helper: one-step unfolding of liveFrom on a destroy event. -/
theorem liveFrom_cons_destroy (n : Nat) (r : List CtxEvent) :
    liveFrom n (CtxEvent.destroy :: r) = liveFrom (n - 1) r := rfl

/-- Helper: the create step of the counter below the wrap bound. -/
theorem counterStep_create (c : Nat) (h : c + 1 < u64Mod) :
    counterStep c CtxEvent.create = c + 1 := by
  show (c + 1) % u64Mod = c + 1
  exact Nat.mod_eq_of_lt h

/-- Helper: the destroy step of the counter below the wrap bound. -/
theorem counterStep_destroy (c : Nat) (h0 : 0 < c) (h : c < u64Mod) :
    counterStep c CtxEvent.destroy = c - 1 := by
  show (c + u64Mod - 1) % u64Mod = c - 1
  have hsplit : c + u64Mod - 1 = (c - 1) + u64Mod := by omega
  rw [hsplit, Nat.add_mod_right]
  exact Nat.mod_eq_of_lt (by omega)

/-- Helper: over any valid event list short enough that the size_t
counter cannot wrap, the counter tracks the number of live objects
exactly. -/
theorem counterFrom_eq_liveFrom (l : List CtxEvent) (n : Nat)
    (hv : validFrom n l = true) (hb : n + l.length < u64Mod) :
    counterFrom n l = liveFrom n l := by
  induction l generalizing n with
  | nil => rfl
  | cons e r ih =>
    have hb' : n + (r.length + 1) < u64Mod := by simpa using hb
    cases e with
    | create =>
      rw [counterFrom_cons, liveFrom_cons_create, counterStep_create n (by omega)]
      exact ih (n + 1) hv (by omega)
    | destroy =>
      have hv' : (decide (0 < n) && validFrom (n - 1) r) = true := hv
      rw [Bool.and_eq_true] at hv'
      have hpos : 0 < n := of_decide_eq_true hv'.1
      rw [counterFrom_cons, liveFrom_cons_destroy,
        counterStep_destroy n hpos (by omega)]
      exact ih (n - 1) hv'.2 (by omega)

/-- Helper: the drain loop never touches the finished field of the state
it threads. -/
theorem drainLoop_fst_finished (now : Nat) (fins : List FinishedInfo) (s : EngineState) :
    ((drainLoop now fins s).1).finished = s.finished := by
  induction fins generalizing s with
  | nil => rfl
  | cons f rest ih => simpa [drainLoop] using ih _

/-- Helper: the action trace of the drain loop is the flat list of
detach-then-invoke pairs of the finished sequence, independent of the
threaded state. -/
theorem drainLoop_snd (now : Nat) (fins : List FinishedInfo) (s : EngineState) :
    (drainLoop now fins s).2 = fins.flatMap drainPair := by
  induction fins generalizing s with
  | nil => rfl
  | cons f rest ih => simp [drainLoop, drainPair, ih]

/-- Helper: the action trace of check_completed. -/
theorem check_completed_snd (now : Nat) (s : EngineState) :
    (check_completed now s).2 = s.finished.flatMap drainPair := by
  unfold check_completed
  rw [drainLoop_snd]

/-- Helper: replacing an already-empty finished field is the identity. -/
theorem EngineState.set_finished_nil (s : EngineState) (h : s.finished = []) :
    ({ s with finished := [] } : EngineState) = s := by
  obtain ⟨fin, ah, cx, tp, kp, sm, cl, cc⟩ := s
  simp_all

/-- Helper: counting invoke actions in the flat drain trace counts the
occurrences of the handle in the finished sequence. -/
theorem flatTrace_count_invoke (fins : List FinishedInfo) (h : Nat) :
    (fins.flatMap drainPair).count (EngineAction.invokeCb h) =
      (fins.map FinishedInfo.handleId).count h := by
  induction fins with
  | nil => rfl
  | cons f rest ih =>
    by_cases hfh : f.handleId = h <;>
      simp [drainPair, List.count_cons, List.count_append, ih, hfh]

/-- Helper: counting detach actions in the flat drain trace counts the
occurrences of the handle in the finished sequence. -/
theorem flatTrace_count_detach (fins : List FinishedInfo) (h : Nat) :
    (fins.flatMap drainPair).count (EngineAction.detach h) =
      (fins.map FinishedInfo.handleId).count h := by
  induction fins with
  | nil => rfl
  | cons f rest ih =>
    by_cases hfh : f.handleId = h <;>
      simp [drainPair, List.count_cons, List.count_append, ih, hfh]

/-- Helper: for a handle of the finished sequence, the flat drain trace
splits as a part free of its invoke action, then its detach action
immediately followed by its invoke action. -/
theorem flatTrace_split (fins : List FinishedInfo) (h : Nat)
    (hmem : h ∈ fins.map FinishedInfo.handleId) :
    ∃ pre post,
      fins.flatMap drainPair =
        pre ++ EngineAction.detach h :: EngineAction.invokeCb h :: post ∧
      EngineAction.invokeCb h ∉ pre := by
  induction fins with
  | nil => simp at hmem
  | cons f rest ih =>
    by_cases hfh : f.handleId = h
    · exact ⟨[], rest.flatMap drainPair, by simp [drainPair, hfh], by simp⟩
    · have hmem' : h ∈ rest.map FinishedInfo.handleId := by
        have hmem2 : h = f.handleId ∨ ∃ a ∈ rest, a.handleId = h := by simpa using hmem
        rcases hmem2 with hcase | ⟨a, ha, hah⟩
        · exact absurd hcase.symm hfh
        · exact List.mem_map.mpr ⟨a, ha, hah⟩
      obtain ⟨pre, post, heq, hnot⟩ := ih hmem'
      refine ⟨drainPair f ++ pre, post, by simp [heq], ?_⟩
      intro hc
      rcases List.mem_append.mp hc with hc | hc
      · simp [drainPair] at hc
        exact hfh hc.symm
      · exact hnot hc

/-!
Claim theorems.
-/

/-- C1: is_successful() (implemented as ok()) returns true iff the
transport-level success flag is set and the response status code is at
least 200 and strictly below 300. -/
theorem ok_iff_transport_and_2xx (c : CallContext) :
    c.ok = true ↔ (c.transport_ok = true ∧ 200 ≤ c.http_result ∧ c.http_result < 300) := by
  simp [CallContext.ok, and_assoc]

/-- C10: pop_back on a buffer of size n with n at least 1 (any size a
real std::vector can have fits in size_t, whence n below 2^64) yields
size n - 1 with the first n - 1 bytes unchanged; on an empty buffer the
size_t computation size() - 1 underflows to 2^64 - 1, so the requested
resize is not a safe shrink. -/
theorem pop_back_spec (b : Buffer) (hsz : b.size < u64Mod) :
    (1 ≤ b.size → (b.pop_back).size = b.size - 1 ∧
      (b.pop_back).bytes = b.bytes.take (b.size - 1)) ∧
    (b.size = 0 → b.popBackRequest = u64Mod - 1) := by
  constructor
  · intro h1
    exact Buffer.pop_back_of_pos b h1 hsz
  · intro h0
    unfold Buffer.popBackRequest
    rw [h0]
    norm_num

/-- Witness for pop_back_spec at the one-byte buffer holding 7. -/
theorem pop_back_spec_witness :
    (Buffer.mk [7]).size < u64Mod ∧
      ((Buffer.mk [7]).pop_back).size = (Buffer.mk [7]).size - 1 :=
  ⟨by norm_num [Buffer.size, u64Mod],
   ((pop_back_spec (Buffer.mk [7]) (by norm_num [Buffer.size, u64Mod])).1 (by
      norm_num [Buffer.size])).1⟩

/-- C3 counterexample: pop_back is an operation the buffer type exposes,
and on the one-byte buffer holding 7 it strictly decreases the size and
does not preserve the existing content as a prefix of the result. -/
theorem buffer_append_only_counterexample :
    ((Buffer.mk [7]).pop_back).size < (Buffer.mk [7]).size ∧
      ((Buffer.mk [7]).pop_back).bytes = [] := by
  constructor
  · show (Buffer.mk [7]).pop_back.bytes.length < 1
    rw [(Buffer.pop_back_of_pos (Buffer.mk [7]) (by norm_num [Buffer.size])
        (by norm_num [Buffer.size, u64Mod])).2]
    norm_num [Buffer.size]
  · rw [(Buffer.pop_back_of_pos (Buffer.mk [7]) (by norm_num [Buffer.size])
        (by norm_num [Buffer.size, u64Mod])).2]
    norm_num [Buffer.size]

/-- C3 amended: reserve and both append operations preserve the existing
content as a prefix and never decrease the size, but pop_back removes the
last byte of a non-empty buffer, strictly decreasing the size; so every
exposed operation except pop_back is append-only. -/
theorem buffer_ops_growth (b : Buffer) (p : List Nat) (s sz : Nat) :
    (b.reserve sz).bytes = b.bytes ∧
    (b.append p).bytes = b.bytes ++ p ∧
    (b.appendByte s).bytes = b.bytes ++ [s] ∧
    (1 ≤ b.size → b.size < u64Mod →
      (b.pop_back).size = b.size - 1 ∧
        (b.pop_back).bytes = b.bytes.take (b.size - 1)) := by
  refine ⟨rfl, rfl, rfl, ?_⟩
  intro h1 h2
  exact Buffer.pop_back_of_pos b h1 h2

/-- Witness for buffer_ops_growth at the two-byte buffer holding 1, 2 and
the appended range holding 9. -/
theorem buffer_ops_growth_witness :
    ((Buffer.mk [1, 2]).append [9]).bytes = [1, 2] ++ [9] ∧
      ((Buffer.mk [1, 2]).pop_back).size = (Buffer.mk [1, 2]).size - 1 :=
  ⟨(buffer_ops_growth (Buffer.mk [1, 2]) [9] 0 0).2.1,
   ((buffer_ops_growth (Buffer.mk [1, 2]) [9] 0 0).2.2.2
      (by norm_num [Buffer.size]) (by norm_num [Buffer.size, u64Mod])).1⟩

/-- C8: rx_content on a context with an empty receive buffer returns the
empty C string and never performs the (undefined) read of the empty
buffer storage; on a non-empty buffer it returns exactly the buffer
content, starting at the first byte. -/
theorem rx_content_spec (c : CallContext) :
    (c.rx_buffer.size = 0 →
      c.rx_content = [] ∧ c.rx_buffer.dataRead = none) ∧
    (c.rx_buffer.size ≠ 0 →
      c.rx_content = c.rx_buffer.bytes ∧
        c.rx_content.head? = c.rx_buffer.bytes.head?) := by
  constructor
  · intro h0
    refine ⟨?_, ?_⟩
    · simp [CallContext.rx_content, h0]
    · simp [Buffer.dataRead, h0]
  · intro hne
    have hcontent : c.rx_content = c.rx_buffer.bytes := by
      simp [CallContext.rx_content, Buffer.dataRead, hne]
    exact ⟨hcontent, by rw [hcontent]⟩

/-- Witness for rx_content_spec: the fresh context has an empty buffer
and rx_content returns the empty string; a context holding the byte 65
returns that byte. -/
theorem rx_content_spec_witness :
    CallContext.new.rx_content = [] ∧
      ({ CallContext.new with rx_buffer := Buffer.mk [65] } : CallContext).rx_content =
        [65] :=
  ⟨((rx_content_spec CallContext.new).1 rfl).1,
   ((rx_content_spec { CallContext.new with rx_buffer := Buffer.mk [65] }).2
      (by norm_num [Buffer.size])).1⟩

/-- C2 counterexample: a context attached at tick 5 is in the attached
phase, so it has not yet been retired, and it reports elapsed
milliseconds -5 rather than the 0 the claim requires (the end timestamp
is still at the epoch while the start timestamp has been set). -/
theorem elapsed_counterexample :
    (CallContext.new.attach 5).phase = Phase.attached ∧
      (CallContext.new.attach 5).milliseconds = -5 := by
  refine ⟨by decide, by decide⟩

/-- C2 amended: elapsed is the difference _end_ts - _start_ts where both
timestamps start at the clock epoch: a context that was never attached
reports 0; a context attached at tick t and not yet retired reports -t
(the end timestamp is still at the epoch); a context attached at tick t
and retired at tick r reports r - t.  Microseconds is the same difference
scaled by 1000. -/
theorem elapsed_spec (t r : Nat) (tok : Bool) (st : Int) :
    CallContext.new.milliseconds = 0 ∧
    (CallContext.new.attach t).milliseconds = -(t : Int) ∧
    ((CallContext.new.attach t).retire r tok st).milliseconds = (r : Int) - (t : Int) ∧
    ((CallContext.new.attach t).retire r tok st).microseconds =
      ((r : Int) - (t : Int)) * 1000 := by
  simp [CallContext.new, CallContext.attach, CallContext.retire,
        CallContext.milliseconds, CallContext.microseconds]

/-- C9 counterexample: on a context with one received byte and elapsed
milliseconds -1 (attached at tick 1, not yet retired), the code returns
0 because the negative divisor is converted to the huge unsigned value
2^64 - 1, whereas the byte count divided by the elapsed milliseconds is
-1. -/
theorem rx_kb_per_sec_counterexample :
    rxRateCtx.milliseconds = -1 ∧
      rxRateCtx.rx_kb_per_sec = 0 ∧
      (rxRateCtx.rx_content_length : Int) / rxRateCtx.milliseconds = -1 := by
  refine ⟨by decide, ?_, by decide⟩
  show castToInt (rxRateCtx.rx_content_length / toUInt64 rxRateCtx.milliseconds) = 0
  decide

/-- C9 amended: rx_kb_per_sec never divides by zero: it returns 0 when
the elapsed milliseconds value is 0, and when the elapsed value is
positive (and the quotient fits in int) it returns the received byte
count divided by the elapsed milliseconds; only for a negative elapsed
value (possible before retirement) does the unsigned conversion of the
divisor make the result deviate. -/
theorem rx_kb_per_sec_spec (c : CallContext) :
    (c.milliseconds = 0 → c.rx_kb_per_sec = 0) ∧
    (0 < c.milliseconds → c.milliseconds < (u64Mod : Int) →
      c.rx_content_length / c.milliseconds.toNat < i32Bound →
      c.rx_kb_per_sec = (c.rx_content_length : Int) / c.milliseconds) := by
  constructor
  · intro h0
    simp [CallContext.rx_kb_per_sec, h0]
  · intro hpos hlt hq
    have hne : c.milliseconds ≠ 0 := by omega
    have hconv : toUInt64 c.milliseconds = c.milliseconds.toNat := by
      unfold toUInt64
      rw [Int.emod_eq_of_lt (by omega) hlt]
    have hcast : castToInt (c.rx_content_length / c.milliseconds.toNat) =
        (c.rx_content_length / c.milliseconds.toNat : Nat) := by
      unfold castToInt
      have hmod : c.rx_content_length / c.milliseconds.toNat % u32Mod =
          c.rx_content_length / c.milliseconds.toNat := by
        apply Nat.mod_eq_of_lt
        have : i32Bound < u32Mod := by norm_num [i32Bound, u32Mod]
        omega
      simp only [hmod]
      rw [if_pos hq]
    have hdiv : ((c.rx_content_length / c.milliseconds.toNat : Nat) : Int) =
        (c.rx_content_length : Int) / c.milliseconds := by
      rw [Int.natCast_div]
      congr 1
      omega
    simp only [CallContext.rx_kb_per_sec, if_neg hne, hconv, hcast, hdiv]

/-- Witness for rx_kb_per_sec_spec: a fresh context has elapsed 0 and
rate 0; the retired context with 5 bytes over 2 milliseconds reports the
quotient 5 / 2 = 2. -/
theorem rx_kb_per_sec_spec_witness :
    CallContext.new.rx_kb_per_sec = 0 ∧
      rxRateCtxRetired.rx_kb_per_sec =
        (rxRateCtxRetired.rx_content_length : Int) / rxRateCtxRetired.milliseconds :=
  ⟨(rx_kb_per_sec_spec CallContext.new).1 (by decide),
   (rx_kb_per_sec_spec rxRateCtxRetired).2 (by decide) (by decide) (by decide)⟩

/-- C4: over any valid process history (no destructor without a live
object, and short enough that the size_t counter cannot wrap, which every
real process history is), the spinlock-guarded counter equals the number
of live call_context objects after every history; and no control-flow
decision of the engine depends on the counter: the action traces of
check_completed and close are unchanged under any replacement of the
counter value. -/
theorem context_counter_spec :
    (∀ l : List CtxEvent, validFrom 0 l = true → l.length < u64Mod →
      counterFrom 0 l = liveFrom 0 l) ∧
    (∀ (s : EngineState) (now c : Nat),
      (check_completed now (setCounter s c)).2 = (check_completed now s).2) ∧
    (∀ (s : EngineState) (c : Nat), (close (setCounter s c)).2 = (close s).2) := by
  refine ⟨fun l hv hb => counterFrom_eq_liveFrom l 0 hv (by omega), ?_, fun s c => rfl⟩
  intro s now c
  rw [check_completed_snd, check_completed_snd]
  rfl

/-- Witness for context_counter_spec: the history create, create, destroy
is valid and leaves counter and live count both at 1. -/
theorem context_counter_spec_witness :
    counterFrom 0 [CtxEvent.create, CtxEvent.create, CtxEvent.destroy] =
      liveFrom 0 [CtxEvent.create, CtxEvent.create, CtxEvent.destroy] :=
  context_counter_spec.1 [CtxEvent.create, CtxEvent.create, CtxEvent.destroy]
    (by decide) (by decide)

/-- C5: check_completed drains the finished sequence to exhaustion before
returning: an immediately repeated call, with no intervening event,
retires nothing, emits no action (no detach and no callback invocation),
and leaves the state exactly as the first call left it. -/
theorem check_completed_exhausts (s : EngineState) (now now2 : Nat) :
    check_completed now2 (check_completed now s).1 = ((check_completed now s).1, []) := by
  have h1 : ((check_completed now s).1).finished = [] := by
    unfold check_completed
    rw [drainLoop_fst_finished]
  show drainLoop now2 ((check_completed now s).1).finished
      { (check_completed now s).1 with finished := [] } = ((check_completed now s).1, [])
  rw [h1, EngineState.set_finished_nil _ h1]
  rfl

/-- C6: in a drain pass over a well-formed finished sequence (the
transport engine reports each finished handle once), the callback of a
finished context is invoked exactly once, and that invocation comes
strictly after the detach of its handle; a handle that did not finish
gets no callback invocation; a later drain with no new event processes an
empty finished sequence and so adds none, making the invocation unique
over the whole lifetime. -/
theorem continuation_once_after_detach (s : EngineState) (now h : Nat)
    (hnd : (s.finished.map FinishedInfo.handleId).Nodup) :
    (h ∈ s.finished.map FinishedInfo.handleId →
      invokeCount (check_completed now s).2 h = 1 ∧
      detachCount (check_completed now s).2 h = 1 ∧
      ∃ pre post,
        (check_completed now s).2 =
          pre ++ EngineAction.detach h :: EngineAction.invokeCb h :: post ∧
        EngineAction.invokeCb h ∉ pre) ∧
    (h ∉ s.finished.map FinishedInfo.handleId →
      invokeCount (check_completed now s).2 h = 0) := by
  constructor
  · intro hmem
    refine ⟨?_, ?_, ?_⟩
    · unfold invokeCount
      rw [check_completed_snd, flatTrace_count_invoke]
      exact List.count_eq_one_of_mem hnd hmem
    · unfold detachCount
      rw [check_completed_snd, flatTrace_count_detach]
      exact List.count_eq_one_of_mem hnd hmem
    · rw [check_completed_snd]
      exact flatTrace_split s.finished h hmem
  · intro hmem
    unfold invokeCount
    rw [check_completed_snd, flatTrace_count_invoke]
    exact List.count_eq_zero_of_not_mem hmem

/-- Witness for continuation_once_after_detach on the two-handle demo
state: handle 1 gets exactly one callback invocation and handle 3 (never
finished) gets none. -/
theorem continuation_once_after_detach_witness :
    invokeCount (check_completed 9 drainDemoState).2 1 = 1 ∧
      invokeCount (check_completed 9 drainDemoState).2 3 = 0 :=
  ⟨((continuation_once_after_detach drainDemoState 9 1 (by decide)).1 (by decide)).1,
   (continuation_once_after_detach drainDemoState 9 3 (by decide)).2 (by decide)⟩

/-- C7: close() is idempotent: a second close finds no pending timer and
no registered socket, so it emits no action (nothing is released twice)
and returns the state unchanged; and close never invokes a caller
callback, so no second round of callback invocations can occur. -/
theorem close_idem (s : EngineState) :
    close (close s).1 = ((close s).1, []) ∧
    ∀ h, EngineAction.invokeCb h ∉ (close s).2 := by
  constructor
  · rfl
  · intro h hmem
    cases htp : s.timerPending <;> cases hkp : s.keepalivePending <;>
      simp [close, htp, hkp] at hmem

/-- Witness for close_idem on the demo state: the double close collapses
and no callback invocation for handle 1 appears in the close trace. -/
theorem close_idem_witness :
    close (close drainDemoState).1 = ((close drainDemoState).1, []) ∧
      EngineAction.invokeCb 1 ∉ (close drainDemoState).2 :=
  ⟨(close_idem drainDemoState).1, (close_idem drainDemoState).2 1⟩

end CsiHttp
